import Mathlib

/-
  Verification of the Input Event Hub (frameworks/base/libs/ui/EventHub.cpp).

  Shallow embedding: the registry state (identity table, poll set, parallel
  device-pointer array, switch table, first-keyboard designation, pending
  lists) is an explicit structure; open_device / close_device are state
  transformers driven by a capability fixture that records the outcomes of
  the kernel ioctls; the pull-mode accessors take the would-be ioctl result
  as an explicit argument.  Machine integers are Nat with explicit masks.

  The key-layout map (KeyLayoutMap.h/.cpp) is not part of the sources under
  verification; it is modelled from its external contract (spec section 4.2).

  Kernel constants are the linux/input.h values of the 2.6.2x era the code
  was written against.
-/

def ID_MASK : Nat := 0x0000ffff
def SEQ_MASK : Nat := 0x7fff0000
def SEQ_SHIFT : Nat := 16

/-- Macro id_to_index(id) ((id&ID_MASK)+1) from EventHub.cpp. -/
def id_to_index (id : Nat) : Nat := (id &&& ID_MASK) + 1

def EV_KEY : Nat := 0x01
def EV_SW : Nat := 0x05
def KEY_MAX : Nat := 0x2ff
def BTN_MISC : Nat := 0x100
def BTN_MOUSE : Nat := 0x110
def BTN_LEFT : Nat := 0x110
def BTN_RIGHT : Nat := 0x111
def BTN_TOUCH : Nat := 0x14a
def REL_X : Nat := 0x00
def REL_Y : Nat := 0x01
def ABS_X : Nat := 0x00
def ABS_Y : Nat := 0x01
def ABS_MT_TOUCH_MAJOR : Nat := 0x30
def ABS_MT_POSITION_X : Nat := 0x35
def ABS_MT_POSITION_Y : Nat := 0x36
def SW_HEADPHONE_INSERT : Nat := 0x02
def SW_MAX : Nat := 0x0f

/- Device class bits (EventHub.h is not among the sources; the spec, section 3,
   fixes the set of classes; the concrete bit values are immaterial to every
   claim, only their distinctness is used). -/
def CLASS_KEYBOARD : Nat := 0x01
def CLASS_ALPHAKEY : Nat := 0x02
def CLASS_TOUCHSCREEN : Nat := 0x04
def CLASS_TRACKBALL : Nat := 0x08
def CLASS_TOUCHSCREEN_MT : Nat := 0x10
def CLASS_DPAD : Nat := 0x20
def CLASS_MOUSE : Nat := 0x40
def CLASS_HEADSET : Nat := 0x80

/- Framework keycodes (KeycodeLabels.h, external); exact values immaterial. -/
def kKeyCodeQ : Nat := 45
def kKeyCodeDpadUp : Nat := 19
def kKeyCodeDpadDown : Nat := 20
def kKeyCodeDpadLeft : Nat := 21
def kKeyCodeDpadRight : Nat := 22
def kKeyCodeDpadCenter : Nat := 23

/-- Macro test_bit(bit, array) (array[bit/8] & (1<<(bit%8))) over a byte
array; indices beyond the buffer read as zero (the buffers are zeroed before
the ioctl and a short ioctl fill leaves the tail zero). -/
def test_bit (bit : Nat) (arr : List Nat) : Bool :=
  (arr.getD (bit / 8) 0).testBit (bit % 8)

/-- Modelled from the spec: KeyLayoutMap (section 4.2) is external to the
sources under src/; it is a finite scancode to (keycode, flags) table with
forward lookup and reverse lookup.  A freshly constructed map (the device_t
constructor does new KeyLayoutMap()) is empty; load replaces the contents. -/
structure KeyLayoutMap where
  entries : List (Nat × Nat × Nat)
deriving DecidableEq

/-- Modelled from the spec: forward lookup, map(scancode) to (keycode, flags)
or not_found. -/
def KeyLayoutMap.map (m : KeyLayoutMap) (scancode : Nat) : Option (Nat × Nat) :=
  (m.entries.find? (fun e => e.1 = scancode)).map (fun e => (e.2.1, e.2.2))

/-- Modelled from the spec: reverse lookup, find_scancodes(keycode) to a
possibly empty sequence of scancodes. -/
def KeyLayoutMap.findScancodes (m : KeyLayoutMap) (keycode : Nat) : List Nat :=
  (m.entries.filter (fun e => e.2.1 = keycode)).map (fun e => e.1)

def KeyLayoutMap.empty : KeyLayoutMap := ⟨[]⟩

/-- Per-device record, EventHub::device_t.  The constructor sets classes = 0,
keyBitmask = NULL and a fresh empty layout map. -/
structure device_t where
  id : Nat
  path : String
  name : String
  classes : Nat
  keyBitmask : Option (List Nat)
  layoutMap : KeyLayoutMap
deriving DecidableEq

def dev0 : device_t := ⟨0, "", "", 0, none, KeyLayoutMap.empty⟩

/-- Identity-table entry, EventHub::device_ent: optional device plus the
pre-shifted sequence counter for the slot. -/
structure device_ent where
  device : Option device_t
  seq : Nat
deriving DecidableEq

def ent0 : device_ent := ⟨none, 0⟩

/-- The registry state of the EventHub.  mFDs models the pollfd array (only
the fd matters here); index 0 is the inotify / sentinel descriptor and
mDevices[0] is NULL.  mFDCount = mFDs.length = mDevices.length. -/
structure EventHub where
  mHaveFirstKeyboard : Bool
  mFirstKeyboardId : Nat
  mDevicesById : List device_ent
  mSwitches : List Nat
  mFDs : List Nat
  mDevices : List (Option device_t)
  mOpeningDevices : List device_t
  mClosingDevices : List device_t
  mExcludedDevices : List String
deriving DecidableEq

/-- State after construction plus openPlatformInput: empty identity table,
zeroed switch table, poll set holding only the watcher descriptor. -/
def initEventHub : EventHub :=
  ⟨false, 0, [], List.replicate (SW_MAX + 1) 0, [0], [none], [], [], []⟩

/-- Capability fixture for one open_device call: the device node path, the
outcomes of the identification ioctls, the capability bitmask reads
(xOk false models a failed EVIOCGBIT, leaving the zeroed buffer), the layout
map that load() would produce together with the default-keymap flag, the fd
returned by open(), and whether growing the identity table succeeds. -/
structure Fixture where
  path : String
  fd : Nat
  name : String
  versionOk : Bool
  idOk : Bool
  keyOk : Bool
  keyBits : List Nat
  relOk : Bool
  relBits : List Nat
  absBits : List Nat
  swOk : Bool
  swBits : List Nat
  layout : KeyLayoutMap
  defaultKeymap : Bool
  allocOk : Bool
deriving DecidableEq

/-- The devid search loop of open_device: lowest index whose device field is
NULL, or the table length when every slot is occupied. -/
def findFreeSlot : List device_ent → Nat
  | [] => 0
  | e :: rest => if e.device = none then 0 else findFreeSlot rest + 1

/-- Lines 659-662: seq = (seq + (1<<SEQ_SHIFT)) & SEQ_MASK, and 1<<SEQ_SHIFT
when that is zero.  The counter is stored pre-shifted. -/
def seqUpdate (s : Nat) : Nat :=
  let s' := (s + (1 <<< SEQ_SHIFT)) &&& SEQ_MASK
  if s' = 0 then 1 <<< SEQ_SHIFT else s'

/-- Lines 710-715: scan the first (BTN_MISC+7)/8 bytes of the EV_KEY bitmask
for any nonzero byte. -/
def scanKeyboardBytes (kb : List Nat) : Bool :=
  (List.range ((BTN_MISC + 7) / 8)).any (fun i => kb.getD i 0 != 0)

/-- Whether the EV_KEY probe classifies the device as a keyboard. -/
def isKbd (fx : Fixture) : Bool := fx.keyOk && scanKeyboardBytes fx.keyBits

/-- The EV_KEY bitmask buffer as later tests see it: zero if the ioctl
failed. -/
def kbEff (fx : Fixture) : List Nat := if fx.keyOk then fx.keyBits else []

/-- Lines 728-742: trackball / mouse classification. -/
def classifyRel (kb : List Nat) (relOk : Bool) (relBits : List Nat) : Nat :=
  if test_bit BTN_MOUSE kb then
    if relOk && test_bit REL_X relBits && test_bit REL_Y relBits then
      if test_bit BTN_LEFT kb && test_bit BTN_RIGHT kb then CLASS_MOUSE
      else CLASS_TRACKBALL
    else 0
  else 0

/-- Lines 744-769: touchscreen classification (the EV_ABS ioctl return value
is ignored; a failure leaves the zeroed buffer, i.e. absBits = []). -/
def classifyAbs (kb : List Nat) (absBits : List Nat) : Nat :=
  if test_bit ABS_MT_TOUCH_MAJOR absBits && test_bit ABS_MT_POSITION_X absBits
      && test_bit ABS_MT_POSITION_Y absBits then
    CLASS_TOUCHSCREEN ||| CLASS_TOUCHSCREEN_MT
  else if test_bit BTN_TOUCH kb && test_bit ABS_X absBits && test_bit ABS_Y absBits then
    CLASS_TOUCHSCREEN
  else 0

/-- Lines 771-785: for each switch bit set (the loop runs i < SW_MAX), claim
an empty switch-table cell with this device id. -/
def claimSwitches (sw : List Nat) (id : Nat) (swOk : Bool) (swBits : List Nat) : List Nat :=
  if swOk then
    sw.mapIdx (fun i v => if i < SW_MAX ∧ test_bit i swBits ∧ v = 0 then id else v)
  else sw

/-- Substring test, strstr(name, pat) != NULL. -/
def strContains (s pat : String) : Bool := decide (pat.data <:+: s.data)

/-- EventHub::hasKeycode (lines 873-890): reverse-map the keycode and test
each candidate scancode (at most KEY_MAX+1 of them) in the cached key
bitmask; false when the bitmask is NULL. -/
def hasKeycode (d : device_t) (keycode : Nat) : Bool :=
  match d.keyBitmask with
  | none => false
  | some kb =>
    ((d.layoutMap.findScancodes keycode).take (KEY_MAX + 1)).any
      (fun sc => sc ≤ KEY_MAX && test_bit sc kb)

/- open_device decomposed into named stages (lines 580-871). -/

def openSlot (st : EventHub) : Nat := findFreeSlot st.mDevicesById

/-- Identity table after the grow-by-one realloc, when needed. -/
def openTbl (st : EventHub) : List device_ent :=
  if st.mDevicesById.length ≤ openSlot st then st.mDevicesById ++ [ent0]
  else st.mDevicesById

/-- The new pre-shifted sequence for the chosen slot. -/
def openSeq (st : EventHub) : Nat :=
  seqUpdate ((openTbl st).getD (openSlot st) ent0).seq

/-- Identity table with the slot's sequence advanced (device field not yet
assigned, matching the source order). -/
def openTbl2 (st : EventHub) : List device_ent :=
  (openTbl st).set (openSlot st) ⟨((openTbl st).getD (openSlot st) ent0).device, openSeq st⟩

/-- Composite id devid | seq built for the new device (line 687). -/
def openId (st : EventHub) : Nat := openSlot st ||| openSeq st

/-- Classes from the capability probes, before the keyboard-only extras. -/
def baseClasses (fx : Fixture) : Nat :=
  (if isKbd fx then CLASS_KEYBOARD else 0)
    ||| classifyRel (kbEff fx) fx.relOk fx.relBits
    ||| classifyAbs (kbEff fx) fx.absBits

/-- Switch table after this device's claim pass. -/
def openSwitches (st : EventHub) (fx : Fixture) : List Nat :=
  claimSwitches st.mSwitches (openId st) fx.swOk fx.swBits

/-- Lines 787-788: mark HEADSET when the SW_HEADPHONE_INSERT cell is nonzero
after the claim pass (the source tests occupancy, not ownership). -/
def classesWithHeadset (st : EventHub) (fx : Fixture) : Nat :=
  if (openSwitches st fx).getD SW_HEADPHONE_INSERT 0 ≠ 0 then
    baseClasses fx ||| CLASS_HEADSET
  else baseClasses fx

/-- Cached key bitmask: allocated and copied only for keyboards. -/
def candidateKeyBitmask (fx : Fixture) : Option (List Nat) :=
  if isKbd fx then some fx.keyBits else none

/-- Layout map: loaded only in the keyboard branch, else the constructor's
empty map. -/
def candidateLayout (fx : Fixture) : KeyLayoutMap :=
  if isKbd fx then fx.layout else KeyLayoutMap.empty

/-- The device record as it stands before the ALPHAKEY / DPAD probes. -/
def preDevice (st : EventHub) (fx : Fixture) : device_t :=
  ⟨openId st, fx.path, fx.name, classesWithHeadset st fx,
    candidateKeyBitmask fx, candidateLayout fx⟩

def hasDpad (d : device_t) : Bool :=
  hasKeycode d kKeyCodeDpadUp && hasKeycode d kKeyCodeDpadDown
    && hasKeycode d kKeyCodeDpadLeft && hasKeycode d kKeyCodeDpadRight
    && hasKeycode d kKeyCodeDpadCenter

/-- Final classes including the keyboard-branch extras (lines 832-844). -/
def candidateClasses (st : EventHub) (fx : Fixture) : Nat :=
  classesWithHeadset st fx
    ||| (if isKbd fx && hasKeycode (preDevice st fx) kKeyCodeQ then CLASS_ALPHAKEY else 0)
    ||| (if isKbd fx && hasDpad (preDevice st fx) then CLASS_DPAD else 0)

def candidateDevice (st : EventHub) (fx : Fixture) : device_t :=
  { preDevice st fx with classes := candidateClasses st fx }

/-- First-keyboard designation (lines 816-827): the -keypad rule sets both
mHaveFirstKeyboard and the id; the any-keyboard fallback sets only the id
and only while it is still zero. -/
def openFirstKbd (st : EventHub) (fx : Fixture) : Bool × Nat :=
  if isKbd fx then
    if ¬ st.mHaveFirstKeyboard ∧ ¬ fx.defaultKeymap ∧ strContains fx.name "-keypad" then
      (true, openId st)
    else if st.mFirstKeyboardId = 0 then (st.mHaveFirstKeyboard, openId st)
    else (st.mHaveFirstKeyboard, st.mFirstKeyboardId)
  else (st.mHaveFirstKeyboard, st.mFirstKeyboardId)

/-- State mutations that have already happened when a classless device is
dropped at line 851: sequence bump, switch-table claims, first-keyboard
designation. -/
def openDropState (st : EventHub) (fx : Fixture) : EventHub :=
  { st with
    mDevicesById := openTbl2 st
    mSwitches := openSwitches st fx
    mHaveFirstKeyboard := (openFirstKbd st fx).1
    mFirstKeyboardId := (openFirstKbd st fx).2 }

/-- Registration (lines 864-869): identity-table slot, poll-set append,
device-pointer append, opening list push. -/
def openRegisterState (st : EventHub) (fx : Fixture) : EventHub :=
  { openDropState st fx with
    mDevicesById := (openTbl2 st).set (openSlot st) ⟨some (candidateDevice st fx), openSeq st⟩
    mFDs := st.mFDs ++ [fx.fd]
    mDevices := st.mDevices ++ [some (candidateDevice st fx)]
    mOpeningDevices := candidateDevice st fx :: st.mOpeningDevices }

/-- Outcome of one open_device call: the new state, the return status, and
whether close(fd) was executed on this path. -/
structure OpenOutcome where
  st : EventHub
  ret : Int
  fdClosed : Bool
deriving DecidableEq

/-- EventHub::open_device (lines 580-871). -/
def open_device (st : EventHub) (fx : Fixture) : OpenOutcome :=
  if ¬ fx.versionOk then ⟨st, -1, false⟩
  else if ¬ fx.idOk then ⟨st, -1, false⟩
  else if fx.name ∈ st.mExcludedDevices then ⟨st, -1, true⟩
  else if st.mDevicesById.length ≤ openSlot st ∧ ¬ fx.allocOk then ⟨st, -1, false⟩
  else if candidateClasses st fx = 0 then ⟨openDropState st fx, -1, true⟩
  else ⟨openRegisterState st fx, 0, false⟩

/-- Index of the open device whose path matches, searching the parallel
array (index 0 never matches: it is NULL). -/
def closeIdx (st : EventHub) (path : String) : Option Nat :=
  st.mDevices.findIdx? (fun o => match o with
    | some d => d.path = path
    | none => false)

def closeFound (st : EventHub) (path : String) : Option device_t :=
  match closeIdx st path with
  | none => none
  | some i => st.mDevices.getD i none

/-- EventHub::close_device (lines 892-943).  Note the switch-clear loop runs
j < EV_SW, exactly as in the source. -/
def close_device (st : EventHub) (path : String) : EventHub × Int :=
  match closeIdx st path with
  | none => (st, -1)
  | some i =>
    match st.mDevices.getD i none with
    | none => (st, -1)
    | some d =>
      ({ st with
        mDevicesById := st.mDevicesById.set (d.id &&& ID_MASK)
          ⟨none, ((st.mDevicesById.getD (d.id &&& ID_MASK) ent0).seq)⟩
        mFDs := st.mFDs.eraseIdx i
        mDevices := st.mDevices.eraseIdx i
        mSwitches := st.mSwitches.mapIdx (fun j v => if j < EV_SW ∧ v = d.id then 0 else v)
        mClosingDevices := d :: st.mClosingDevices
        mFirstKeyboardId := if d.id = st.mFirstKeyboardId then 0 else st.mFirstKeyboardId }, 0)

/-- EventHub::getDevice (lines 293-304). -/
def getDevice (st : EventHub) (deviceId : Nat) : Option device_t :=
  let deviceId := if deviceId = 0 then st.mFirstKeyboardId else deviceId
  let slot := deviceId &&& ID_MASK
  if st.mDevicesById.length ≤ slot then none
  else match (st.mDevicesById.getD slot ent0).device with
    | none => none
    | some d => if d.id = deviceId then some d else none

/-- EventHub::getDeviceName: empty (none) on lookup failure. -/
def getDeviceName (st : EventHub) (deviceId : Nat) : Option String :=
  (getDevice st deviceId).map device_t.name

/-- EventHub::getDeviceClasses: 0 on lookup failure. -/
def getDeviceClasses (st : EventHub) (deviceId : Nat) : Nat :=
  ((getDevice st deviceId).map device_t.classes).getD 0

/-- EventHub::getAbsoluteInfo; absRead is the EVIOCGABS outcome. -/
def getAbsoluteInfo (st : EventHub) (deviceId : Nat)
    (absRead : Option (Int × Int × Int × Int)) : Int :=
  match getDevice st deviceId with
  | none => -1
  | some _ => match absRead with
    | none => -1
    | some _ => 0

/-- EventHub::getSwitchState(deviceId, sw); swRead is the EVIOCGSW outcome. -/
def getSwitchState (st : EventHub) (deviceId sw : Nat)
    (swRead : Option (List Nat)) : Int :=
  match getDevice st deviceId with
  | none => -1
  | some _ =>
    if sw ≤ SW_MAX then
      match swRead with
      | some bits => if test_bit sw bits then 1 else 0
      | none => -1
    else -1

/-- EventHub::getScancodeState(deviceId, code); keyRead is the EVIOCGKEY
outcome. -/
def getScancodeState (st : EventHub) (deviceId code : Nat)
    (keyRead : Option (List Nat)) : Int :=
  match getDevice st deviceId with
  | none => -1
  | some _ =>
    if code ≤ KEY_MAX then
      match keyRead with
      | some bits => if test_bit code bits then 1 else 0
      | none => -1
    else -1

/-- EventHub::getKeycodeState(deviceId, code): reverse-map then test each
scancode; 0 when the EVIOCGKEY ioctl fails, -1 only on lookup failure. -/
def getKeycodeState (st : EventHub) (deviceId code : Nat)
    (keyRead : Option (List Nat)) : Int :=
  match getDevice st deviceId with
  | none => -1
  | some d =>
    match keyRead with
    | none => 0
    | some bits =>
      if ((d.layoutMap.findScancodes code).take (KEY_MAX + 1)).any
          (fun sc => sc ≤ KEY_MAX && test_bit sc bits) then 1 else 0

/-- One raw struct input_event as read from a device fd. -/
structure input_event where
  tv_sec : Nat
  tv_usec : Nat
  type : Nat
  code : Nat
  value : Int
deriving DecidableEq

/-- The outputs of one successful getEvent delivery. -/
structure RawEvent where
  deviceId : Nat
  type : Nat
  scancode : Nat
  keycode : Nat
  flags : Nat
  value : Int
  whenNs : Nat
deriving DecidableEq

/-- The translation step of EventHub::getEvent (lines 422-439) for one raw
event read from device d: EV_KEY events go through the device's layout map,
with keycode = flags = 0 on a mapping miss; other types copy the scancode;
when := s2ns(tv_sec) + us2ns(tv_usec). -/
def deliverEvent (firstKeyboardId : Nat) (d : device_t) (iev : input_event) : RawEvent :=
  let devId := if d.id = firstKeyboardId then 0 else d.id
  let kcfl :=
    if iev.type = EV_KEY then
      match d.layoutMap.map iev.code with
      | some p => p
      | none => (0, 0)
    else (iev.code, 0)
  ⟨devId, iev.type, iev.code, kcfl.1, kcfl.2, iev.value,
    iev.tv_sec * 1000000000 + iev.tv_usec * 1000⟩

/-- One device step of EventHub::hasKeys for a single keycode: none models a
dereference of a NULL keyBitmask (the source calls test_bit on it whenever
the reverse lookup produced scancodes). -/
def deviceKeyTest (d : device_t) (kc : Nat) : Option Bool :=
  match d.layoutMap.findScancodes kc with
  | [] => some false
  | scs =>
    match d.keyBitmask with
    | none => none
    | some kb => some (scs.any (fun sc => test_bit sc kb))

/-- The inner device loop of hasKeys (lines 558-572): scan the parallel
array until some device supports the keycode. -/
def hasKeysScan : List (Option device_t) → Nat → Option Bool
  | [], _ => some false
  | none :: rest, kc => hasKeysScan rest kc
  | some d :: rest, kc =>
    match deviceKeyTest d kc with
    | none => none
    | some true => some true
    | some false => hasKeysScan rest kc

/-- EventHub::hasKeys (lines 552-576): one output flag per requested
keycode; none when any bit test would dereference a NULL bitmask. -/
def hasKeys (st : EventHub) : List Nat → Option (List Bool)
  | [] => some []
  | c :: rest =>
    match hasKeysScan st.mDevices c, hasKeys st rest with
    | some b, some bs => some (b :: bs)
    | _, _ => none

/-- Registry-mutating calls, for reachability statements. -/
inductive Step where
  | openDev : Fixture → Step
  | closeDev : String → Step
deriving DecidableEq

def runStep (st : EventHub) : Step → EventHub
  | .openDev fx => (open_device st fx).st
  | .closeDev p => (close_device st p).1

/-- The registry state after a sequence of open_device / close_device calls
starting from the freshly opened hub. -/
def run (steps : List Step) : EventHub := steps.foldl runStep initEventHub

/- Concrete fixtures used by the witnesses and counterexamples below. -/

/-- A plain keyboard (one key bit below BTN_MISC), default keymap. -/
def fxA : Fixture :=
  ⟨"devA", 10, "AT Keyboard", true, true, true, [1], false, [], [], false, [],
    KeyLayoutMap.empty, true, true⟩

def fxB : Fixture :=
  ⟨"devB", 11, "AT Keyboard 2", true, true, true, [1], false, [], [], false, [],
    KeyLayoutMap.empty, true, true⟩

def fxC : Fixture :=
  ⟨"devC", 12, "AT Keyboard 3", true, true, true, [1], false, [], [], false, [],
    KeyLayoutMap.empty, true, true⟩

/-- A keypad with its own (non-default) keymap and a -keypad name. -/
def fxKeypad : Fixture :=
  ⟨"devK", 13, "omap-keypad", true, true, true, [1], false, [], [], false, [],
    KeyLayoutMap.empty, false, true⟩

/-- A headset switch device: only SW_HEADPHONE_INSERT (bit 2 of the EV_SW
bitmask). -/
def fxH1 : Fixture :=
  ⟨"devH1", 20, "h2w headset", true, true, false, [], false, [], [], true, [4],
    KeyLayoutMap.empty, true, true⟩

def fxH2 : Fixture :=
  ⟨"devH2", 21, "h2w headset 2", true, true, false, [], false, [], [], true, [4],
    KeyLayoutMap.empty, true, true⟩

/-- A keyboard that also reports switch 5 (SW_DOCK, above the EV_SW clearing
bound and below SW_MAX). -/
def fxS : Fixture :=
  ⟨"devS", 30, "gpio-keys", true, true, true, [1], false, [], [], true, [32],
    KeyLayoutMap.empty, true, true⟩

/-- A device whose identity-table growth fails (out of memory). -/
def fxOom : Fixture :=
  ⟨"devO", 40, "oom device", true, true, true, [1], false, [], [], false, [],
    KeyLayoutMap.empty, true, false⟩

/-- A device whose only EV_KEY capability bit is 256 = BTN_MISC (first bit of
byte 32), like a media-transport-only remote. -/
def fxMediaOnly : Fixture :=
  ⟨"devM", 50, "media keys", true, true, true, List.replicate 32 0 ++ [1],
    false, [], [], false, [], KeyLayoutMap.empty, true, true⟩

/-- A keyboard device with a one-entry layout map, for the event-translation
witness. -/
def dW : device_t := ⟨65536, "devW", "kbd", 1, some [1], ⟨[(30, 101, 5)]⟩⟩

def ievW : input_event := ⟨7, 3, EV_KEY, 30, 9⟩

/-- State with a -keypad first keyboard designated. -/
def stKeypad : EventHub := run [Step.openDev fxKeypad]

/-- The poll-index failing trace: open A and B, close A (compacting the poll
set), open C (reusing slot 0 and the now-second poll position). -/
def c9trace : List Step :=
  [Step.openDev fxA, Step.openDev fxB, Step.closeDev "devA", Step.openDev fxC]

/-- Devices good for hasKeys: a NULL key bitmask implies an empty layout map
(so the reverse lookup can never produce scancodes to test). -/
def goodDev (d : device_t) : Prop := d.keyBitmask = none → d.layoutMap.entries = []

def goodState (st : EventHub) : Prop :=
  ∀ o ∈ st.mDevices, ∀ d, o = some d → goodDev d

/- Bitwise helper lemmas. -/

theorem land_lor_right (a b c : Nat) : (a ||| b) &&& c = (a &&& c) ||| (b &&& c) := by
  apply Nat.eq_of_testBit_eq
  intro i
  simp only [Nat.testBit_land, Nat.testBit_lor]
  cases a.testBit i <;> cases b.testBit i <;> cases c.testBit i <;> rfl

theorem lor_eq_zero_iff (a b : Nat) : a ||| b = 0 ↔ a = 0 ∧ b = 0 := by
  constructor
  · intro h
    have hb : ∀ i, (a ||| b).testBit i = false := by
      intro i; rw [h]; exact Nat.zero_testBit i
    constructor <;>
      · apply Nat.eq_of_testBit_eq
        intro i
        have hi := hb i
        simp only [Nat.testBit_lor, Bool.or_eq_false_iff] at hi
        simp [Nat.zero_testBit, hi.1, hi.2]
  · rintro ⟨rfl, rfl⟩; rfl

theorem and_two_pow_of_lt {x k : Nat} (h : x < 2 ^ k) : x &&& 2 ^ k = 0 := by
  apply Nat.eq_of_testBit_eq
  intro i
  simp only [Nat.testBit_land, Nat.zero_testBit, Nat.testBit_two_pow]
  rcases eq_or_ne k i with rfl | hne
  · simp [Nat.testBit_lt_two_pow h]
  · simp [hne]

theorem lor_lt_two_pow {a b k : Nat} (ha : a < 2 ^ k) (hb : b < 2 ^ k) :
    a ||| b < 2 ^ k := by
  apply Nat.lt_pow_two_of_testBit
  intro i hi
  have h2 : (2 : Nat) ^ k ≤ 2 ^ i := Nat.pow_le_pow_right (by norm_num) hi
  simp [Nat.testBit_lor, Nat.testBit_lt_two_pow (lt_of_lt_of_le ha h2),
    Nat.testBit_lt_two_pow (lt_of_lt_of_le hb h2)]

theorem shift16_land (v m : Nat) : (v <<< 16) &&& (m <<< 16) = (v &&& m) <<< 16 := by
  apply Nat.eq_of_testBit_eq
  intro i
  simp only [Nat.testBit_land, Nat.testBit_shiftLeft]
  by_cases h : 16 ≤ i <;>
    simp [h, Nat.testBit_land, Bool.and_assoc, Bool.and_comm, Bool.and_left_comm]

theorem low_and_shift16 {slot : Nat} (m : Nat) (h : slot < 2 ^ 16) :
    slot &&& (m <<< 16) = 0 := by
  apply Nat.eq_of_testBit_eq
  intro i
  simp only [Nat.testBit_land, Nat.testBit_shiftLeft, Nat.zero_testBit]
  by_cases hi : 16 ≤ i
  · have h2 : (2 : Nat) ^ 16 ≤ 2 ^ i := Nat.pow_le_pow_right (by norm_num) hi
    simp [Nat.testBit_lt_two_pow (lt_of_lt_of_le h h2)]
  · simp [hi]

theorem lor_shift16_eq_add {slot : Nat} (v : Nat) (h : slot < 2 ^ 16) :
    slot ||| (v <<< 16) = 2 ^ 16 * v + slot := by
  apply Nat.eq_of_testBit_eq
  intro i
  rw [Nat.testBit_mul_pow_two_add v h i]
  simp only [Nat.testBit_lor, Nat.testBit_shiftLeft]
  by_cases hi : i < 16
  · simp [hi, Nat.not_le.mpr hi]
  · have hle : 16 ≤ i := Nat.not_lt.mp hi
    have h2 : (2 : Nat) ^ 16 ≤ 2 ^ i := Nat.pow_le_pow_right (by norm_num) hle
    simp [hi, hle, Nat.testBit_lt_two_pow (lt_of_lt_of_le h h2)]

theorem or_and_shift_mask {slot : Nat} (v m : Nat) (h : slot < 2 ^ 16) :
    (slot ||| (v <<< 16)) &&& (m <<< 16) = (v &&& m) <<< 16 := by
  rw [land_lor_right, low_and_shift16 m h, shift16_land]
  simp

theorem and_mask15_eq_mod (x : Nat) : x &&& 0x7FFF = x % 2 ^ 15 := by
  have h : (0x7FFF : Nat) = 2 ^ 15 - 1 := by norm_num
  rw [h, Nat.and_pow_two_sub_one_eq_mod]

/-- C1: for every composite identifier (every nonzero id; id 0 is the legacy
alias that getDevice redirects to the first keyboard), lookup returns a
device record exactly when the slot index id & 0xFFFF is in range of the
identity table, the slot is occupied, and the stored record's id equals the
requested id exactly; consequently a stale identifier (the slot now holds a
record whose id differs) fails lookup, and every accessor taking it returns
its null / NOT_FOUND value. -/
theorem C1_lookup_exact (st : EventHub) (id : Nat) (h : id ≠ 0) :
    ((∃ d, getDevice st id = some d) ↔
      ∃ d, id &&& ID_MASK < st.mDevicesById.length ∧
        (st.mDevicesById.getD (id &&& ID_MASK) ent0).device = some d ∧ d.id = id) ∧
    (∀ d, (st.mDevicesById.getD (id &&& ID_MASK) ent0).device = some d → d.id ≠ id →
      getDevice st id = none) ∧
    (getDevice st id = none →
      getDeviceName st id = none ∧ getDeviceClasses st id = 0 ∧
      (∀ r, getAbsoluteInfo st id r = -1) ∧
      (∀ sw r, getSwitchState st id sw r = -1) ∧
      (∀ c r, getScancodeState st id c r = -1) ∧
      (∀ c r, getKeycodeState st id c r = -1)) := by
  have hgd : getDevice st id =
      (if st.mDevicesById.length ≤ id &&& ID_MASK then none
       else match (st.mDevicesById.getD (id &&& ID_MASK) ent0).device with
         | none => none
         | some d => if d.id = id then some d else none) := by
    unfold getDevice
    simp [h]
  refine ⟨?_, ?_, ?_⟩
  · rw [hgd]
    by_cases hlen : st.mDevicesById.length ≤ id &&& ID_MASK
    · simp [hlen]
    · simp only [if_neg hlen]
      cases hdev : (st.mDevicesById.getD (id &&& ID_MASK) ent0).device with
      | none => simp [hdev, Nat.lt_of_not_le hlen]
      | some d =>
        by_cases hid : d.id = id
        · simp [hdev, hid, Nat.lt_of_not_le hlen]
        · simp [hdev, hid]
  · intro d hd hid
    rw [hgd]
    by_cases hlen : st.mDevicesById.length ≤ id &&& ID_MASK
    · simp [hlen]
    · simp only [if_neg hlen]
      rw [hd]
      simp [hid]
  · intro hnone
    refine ⟨?_, ?_, ?_, ?_, ?_, ?_⟩
    · unfold getDeviceName; rw [hnone]; rfl
    · unfold getDeviceClasses; rw [hnone]; rfl
    · intro r; unfold getAbsoluteInfo; rw [hnone]
    · intro sw r; unfold getSwitchState; rw [hnone]
    · intro c r; unfold getScancodeState; rw [hnone]
    · intro c r; unfold getKeycodeState; rw [hnone]

/-- Witness for C1 at the empty registry and id 5. -/
theorem C1_witness : getDeviceName initEventHub 5 = none :=
  ((C1_lookup_exact initEventHub 5 (by norm_num)).2.2 (by rfl)).1

/-- C2: for every reassignment, the stored (pre-shifted) sequence advances by
one in the high half, wrapping within 15 bits and never to zero, exactly as
the claim states, with the wrap 0x7FFF to 0x0001 included; every composite
id slot | seq built from the result has nonzero sequence bits, its low 16
bits equal to the slot, and a zero high bit.  open_device performs exactly
this update (openSeq is seqUpdate of the stored value). -/
theorem C2_sequence_wrap :
    ∀ u : Nat, u < 2 ^ 15 →
      seqUpdate (u <<< SEQ_SHIFT) =
        (if (u + 1) &&& 0x7FFF = 0 then 1 else (u + 1) &&& 0x7FFF) <<< SEQ_SHIFT ∧
      seqUpdate (u <<< SEQ_SHIFT) ≠ 0 ∧
      seqUpdate (0x7FFF <<< SEQ_SHIFT) = 0x0001 <<< SEQ_SHIFT ∧
      ∀ slot : Nat, slot ≤ 0xFFFF →
        (slot ||| seqUpdate (u <<< SEQ_SHIFT)) &&& SEQ_MASK ≠ 0 ∧
        (slot ||| seqUpdate (u <<< SEQ_SHIFT)) &&& ID_MASK = slot ∧
        (slot ||| seqUpdate (u <<< SEQ_SHIFT)) < 2 ^ 31 := by
  intro u hu
  have hseqmask : SEQ_MASK = 0x7FFF <<< 16 := by norm_num [SEQ_MASK, Nat.shiftLeft_eq]
  have hadd : u <<< 16 + 1 <<< 16 = (u + 1) <<< 16 := by
    simp [Nat.shiftLeft_eq, Nat.add_mul]
  have hmask : ((u + 1) <<< 16) &&& SEQ_MASK = ((u + 1) &&& 0x7FFF) <<< 16 := by
    rw [hseqmask, shift16_land]
  have hupd : seqUpdate (u <<< SEQ_SHIFT) =
      (if (u + 1) &&& 0x7FFF = 0 then 1 else (u + 1) &&& 0x7FFF) <<< SEQ_SHIFT := by
    unfold seqUpdate
    simp only [SEQ_SHIFT]
    rw [hadd, hmask]
    by_cases h0 : (u + 1) &&& 0x7FFF = 0
    · simp [h0]
    · have hne : ((u + 1) &&& 0x7FFF) <<< 16 ≠ 0 := by
        simp only [Nat.shiftLeft_eq]
        intro hc
        exact h0 (by omega)
      simp [hne, h0]
  have hwlt : (u + 1) &&& 0x7FFF < 2 ^ 15 := by
    rw [and_mask15_eq_mod]
    exact Nat.mod_lt _ (by norm_num)
  have hval : ∃ w : Nat, seqUpdate (u <<< SEQ_SHIFT) = w <<< 16 ∧ w ≠ 0 ∧ w < 2 ^ 15 := by
    refine ⟨if (u + 1) &&& 0x7FFF = 0 then 1 else (u + 1) &&& 0x7FFF,
      by rw [hupd]; rfl, ?_, ?_⟩
    · by_cases h0 : (u + 1) &&& 0x7FFF = 0 <;> simp [h0]
    · by_cases h0 : (u + 1) &&& 0x7FFF = 0
      · simp [h0]
      · simpa [h0] using hwlt
  obtain ⟨w, hw, hwne, hwlt2⟩ := hval
  refine ⟨hupd, ?_, by decide, ?_⟩
  · rw [hw]
    simp only [Nat.shiftLeft_eq]
    intro hc
    exact hwne (by omega)
  · intro slot hslot
    have hslot16 : slot < 2 ^ 16 := by norm_num at hslot ⊢; omega
    refine ⟨?_, ?_, ?_⟩
    · rw [hw, hseqmask, or_and_shift_mask _ _ hslot16, and_mask15_eq_mod,
        Nat.mod_eq_of_lt hwlt2]
      simp only [Nat.shiftLeft_eq]
      intro hc
      exact hwne (by omega)
    · have hID : (ID_MASK : Nat) = 2 ^ 16 - 1 := by norm_num [ID_MASK]
      rw [hw, lor_shift16_eq_add _ hslot16, hID, Nat.and_pow_two_sub_one_eq_mod,
        Nat.mul_add_mod, Nat.mod_eq_of_lt hslot16]
    · rw [hw]
      apply lor_lt_two_pow
      · have : (2 : Nat) ^ 31 = 2147483648 := by norm_num
        omega
      · simp only [Nat.shiftLeft_eq]
        have h31 : (2 : Nat) ^ 31 = 2147483648 := by norm_num
        have h15 : (2 : Nat) ^ 15 = 32768 := by norm_num
        omega

/-- Witness for C2 at stored sequence 3 << 16. -/
theorem C2_witness : seqUpdate (3 <<< SEQ_SHIFT) ≠ 0 :=
  (C2_sequence_wrap 3 (by norm_num)).2.1

/-- Byte-scan versus bit-range: the first 32-byte scan finds a nonzero byte
exactly when some bit strictly below BTN_MISC = 256 is set, provided every
byte is an actual byte (< 256). -/
theorem scanKeyboardBytes_iff (kb : List Nat) (hwf : ∀ b ∈ kb, b < 256) :
    scanKeyboardBytes kb = true ↔ ∃ bit, bit < BTN_MISC ∧ test_bit bit kb = true := by
  unfold scanKeyboardBytes
  rw [List.any_eq_true]
  constructor
  · rintro ⟨i, hi, hbyte⟩
    rw [List.mem_range] at hi
    have hbne : kb.getD i 0 ≠ 0 := by simpa using hbyte
    obtain ⟨j, hj⟩ := Nat.ne_zero_implies_bit_true hbne
    have hblt : kb.getD i 0 < 256 := by
      rcases Nat.lt_or_ge i kb.length with hil | hil
      · rw [List.getD_eq_getElem?_getD, List.getElem?_eq_getElem hil]
        exact hwf _ (List.getElem_mem hil)
      · rw [List.getD_eq_getElem?_getD, List.getElem?_eq_none hil]
        norm_num
    have hj8 : j < 8 := by
      by_contra hge
      have h2 : (256 : Nat) ≤ 2 ^ j := by
        calc (256 : Nat) = 2 ^ 8 := by norm_num
        _ ≤ 2 ^ j := Nat.pow_le_pow_right (by norm_num) (Nat.le_of_not_lt hge)
      have hfalse := Nat.testBit_lt_two_pow (x := kb.getD i 0) (i := j)
        (lt_of_lt_of_le hblt h2)
      rw [hj] at hfalse
      simp at hfalse
    refine ⟨8 * i + j, ?_, ?_⟩
    · have hB : BTN_MISC = 256 := rfl
      omega
    · unfold test_bit
      have h1 : (8 * i + j) / 8 = i := by omega
      have h2 : (8 * i + j) % 8 = j := by omega
      rw [h1, h2]
      exact hj
  · rintro ⟨bit, hbit, htb⟩
    unfold test_bit at htb
    refine ⟨bit / 8, ?_, ?_⟩
    · rw [List.mem_range]
      have hB : BTN_MISC = 256 := rfl
      omega
    · simp only [bne_iff_ne, ne_eq]
      intro h0
      rw [h0] at htb
      rw [Nat.zero_testBit] at htb
      simp at htb

/-- The CLASS_KEYBOARD bit of the final classes is set exactly by the EV_KEY
byte scan; no other classification stage contributes that bit. -/
theorem candidate_and_keyboard (st : EventHub) (fx : Fixture) :
    candidateClasses st fx &&& CLASS_KEYBOARD = if isKbd fx then 1 else 0 := by
  unfold candidateClasses classesWithHeadset baseClasses classifyRel classifyAbs
  split_ifs <;> decide

/-- C3: a probed device is classified KEYBOARD exactly when the EV_KEY ioctl
succeeded and some bit in [0, BTN_MISC) is set (the byte scan of the first
(BTN_MISC+7)/8 bytes is exactly that range since BTN_MISC is a multiple of
8); a device whose key bits are all at or above BTN_MISC is not a KEYBOARD;
and when the whole classification yields no class, open_device fails,
closes the candidate fd, and registers nothing. -/
theorem C3_keyboard_btn_misc (st : EventHub) (fx : Fixture)
    (hwf : ∀ b ∈ fx.keyBits, b < 256) :
    (candidateClasses st fx &&& CLASS_KEYBOARD ≠ 0 ↔
      fx.keyOk = true ∧ ∃ bit, bit < BTN_MISC ∧ test_bit bit fx.keyBits = true) ∧
    ((¬ ∃ bit, bit < BTN_MISC ∧ test_bit bit fx.keyBits = true) →
      candidateClasses st fx &&& CLASS_KEYBOARD = 0) ∧
    (candidateClasses st fx = 0 → fx.versionOk = true → fx.idOk = true →
      fx.name ∉ st.mExcludedDevices →
      (st.mDevicesById.length ≤ openSlot st → fx.allocOk = true) →
      (open_device st fx).ret = -1 ∧ (open_device st fx).fdClosed = true ∧
      (open_device st fx).st.mDevices = st.mDevices ∧
      (open_device st fx).st.mFDs = st.mFDs) := by
  refine ⟨?_, ?_, ?_⟩
  · rw [candidate_and_keyboard]
    constructor
    · intro hne
      have hk : isKbd fx = true := by
        by_contra hkf
        simp [hkf] at hne
      unfold isKbd at hk
      rw [Bool.and_eq_true] at hk
      exact ⟨hk.1, (scanKeyboardBytes_iff _ hwf).mp hk.2⟩
    · rintro ⟨hko, hex2⟩
      have hscan := (scanKeyboardBytes_iff _ hwf).mpr hex2
      have hk : isKbd fx = true := by
        unfold isKbd
        rw [hko, hscan]
        rfl
      simp [hk]
  · intro hnex
    rw [candidate_and_keyboard]
    by_cases hk : isKbd fx
    · exfalso
      unfold isKbd at hk
      rw [Bool.and_eq_true] at hk
      exact hnex ((scanKeyboardBytes_iff _ hwf).mp hk.2)
    · simp [hk]
  · intro hc hv hi hex halloc
    have hno : ¬(st.mDevicesById.length ≤ openSlot st ∧ fx.allocOk = false) := by
      rintro ⟨ha, hb⟩
      rw [halloc ha] at hb
      cases hb
    simp [open_device, hv, hi, hex, hno, hc, openDropState]

/-- Witness for C3: a device with only key bit 256 = BTN_MISC set and no
other capabilities is rejected with its fd closed. -/
theorem C3_witness :
    (open_device initEventHub fxMediaOnly).ret = -1 ∧
    (open_device initEventHub fxMediaOnly).fdClosed = true := by
  have h := (C3_keyboard_btn_misc initEventHub fxMediaOnly (by decide)).2.2
    (by decide) rfl rfl (by decide) (fun _ => rfl)
  exact ⟨h.1, h.2.1⟩

/-- C4: the translation step of getEvent copies type, scancode and value;
for EV_KEY the keycode and flags come from the device's layout map on a hit
and are 0, 0 on a miss (the event is still delivered: the output record is
produced either way); for every other type the keycode equals the scancode
and flags is 0; and the timestamp is tv_sec * 10^9 + tv_usec * 10^3
nanoseconds. -/
theorem C4_event_translation (fk : Nat) (d : device_t) (iev : input_event) :
    (deliverEvent fk d iev).type = iev.type ∧
    (deliverEvent fk d iev).scancode = iev.code ∧
    (deliverEvent fk d iev).value = iev.value ∧
    (deliverEvent fk d iev).whenNs = iev.tv_sec * 1000000000 + iev.tv_usec * 1000 ∧
    (iev.type = EV_KEY → ∀ kc fl, d.layoutMap.map iev.code = some (kc, fl) →
      (deliverEvent fk d iev).keycode = kc ∧ (deliverEvent fk d iev).flags = fl) ∧
    (iev.type = EV_KEY → d.layoutMap.map iev.code = none →
      (deliverEvent fk d iev).keycode = 0 ∧ (deliverEvent fk d iev).flags = 0) ∧
    (iev.type ≠ EV_KEY →
      (deliverEvent fk d iev).keycode = iev.code ∧ (deliverEvent fk d iev).flags = 0) := by
  unfold deliverEvent
  refine ⟨rfl, rfl, rfl, rfl, ?_, ?_, ?_⟩
  · intro ht kc fl hm
    simp [ht, hm]
  · intro ht hm
    simp [ht, hm]
  · intro ht
    simp [ht]

/-- Witness for C4: scancode 30 mapped to keycode 101 with flags 5. -/
theorem C4_witness :
    (deliverEvent 0 dW ievW).keycode = 101 ∧ (deliverEvent 0 dW ievW).flags = 5 :=
  (C4_event_translation 0 dW ievW).2.2.2.2.1 rfl 101 5 (by decide)

/-- The CLASS_HEADSET bit of the final classes is set exactly when the
SW_HEADPHONE_INSERT cell is nonzero after this device's claim pass,
regardless of which device id occupies the cell. -/
theorem candidate_and_headset (st : EventHub) (fx : Fixture) :
    candidateClasses st fx &&& CLASS_HEADSET =
      if (openSwitches st fx).getD SW_HEADPHONE_INSERT 0 ≠ 0 then CLASS_HEADSET else 0 := by
  unfold candidateClasses classesWithHeadset baseClasses classifyRel classifyAbs
  split_ifs <;> decide

/-- C5 counterexample: two devices both report SW_HEADPHONE_INSERT; the
second one discovered is still marked HEADSET (classes bit set) although the
switch-table cell is claimed by the first device's id 65536, not by the
second device's id 65537.  This refutes the claim that HEADSET is granted
exactly when the cell is claimed by the device's own id. -/
theorem C5_counterexample :
    (((run [Step.openDev fxH1, Step.openDev fxH2]).mDevices.getD 2 none).getD dev0).classes
        &&& CLASS_HEADSET ≠ 0 ∧
    (run [Step.openDev fxH1, Step.openDev fxH2]).mSwitches.getD SW_HEADPHONE_INSERT 0 = 65536 ∧
    (((run [Step.openDev fxH1, Step.openDev fxH2]).mDevices.getD 2 none).getD dev0).id = 65537 := by
  decide

/-- C5 (amended): a discovered device is marked HEADSET exactly when the
SW_HEADPHONE_INSERT switch-table cell is nonzero after its claim pass, that
is, claimed by some device, not necessarily itself; only the first device to
report the switch receives the claim itself. -/
theorem C5_headset_amended (st : EventHub) (fx : Fixture) :
    (open_device st fx).ret = 0 →
    ∀ d, (open_device st fx).st.mOpeningDevices = d :: st.mOpeningDevices →
      (d.classes &&& CLASS_HEADSET ≠ 0 ↔
        (open_device st fx).st.mSwitches.getD SW_HEADPHONE_INSERT 0 ≠ 0) := by
  intro hret d hd
  unfold open_device at hret hd ⊢
  split_ifs at hret hd ⊢
  any_goals simp at hret
  have hdd : d = candidateDevice st fx := by
    have hc : candidateDevice st fx :: st.mOpeningDevices = d :: st.mOpeningDevices := by
      simpa [openRegisterState, openDropState] using hd
    injection hc with hh
    exact hh.symm
  subst hdd
  have hsw : (openRegisterState st fx).mSwitches = openSwitches st fx := by
    simp [openRegisterState, openDropState]
  rw [hsw]
  have hcl : (candidateDevice st fx).classes = candidateClasses st fx := rfl
  rw [hcl, candidate_and_headset]
  by_cases hcond : (openSwitches st fx).getD SW_HEADPHONE_INSERT 0 ≠ 0 <;>
    simp [hcond, CLASS_HEADSET]

/-- Witness for C5: the first headset device itself is marked HEADSET. -/
theorem C5_witness :
    (candidateDevice initEventHub fxH1).classes &&& CLASS_HEADSET ≠ 0 := by
  have h := C5_headset_amended initEventHub fxH1 (by decide)
    (candidateDevice initEventHub fxH1) (by decide)
  exact h.mpr (by decide)

/-- C6 counterexample: a plain keyboard is designated first keyboard by the
any-keyboard fallback (id 65536); a later -keypad device with its own keymap
re-designates the first keyboard to id 65537 while the earlier device is
still open.  This refutes the claim that a designation made by the fallback
is sticky. -/
theorem C6_counterexample :
    (run [Step.openDev fxA]).mFirstKeyboardId = 65536 ∧
    (getDevice (run [Step.openDev fxA, Step.openDev fxKeypad]) 65536).isSome = true ∧
    (run [Step.openDev fxA, Step.openDev fxKeypad]).mFirstKeyboardId = 65537 := by
  decide

/-- C6 (amended): once the -keypad rule has designated a first keyboard
(mHaveFirstKeyboard set) and while that designation stands (the id is
nonzero), no subsequent open_device call changes the designation; a
designation made by the any-keyboard fallback, by contrast, can be replaced
by a later -keypad discovery.  Closing a device other than the designated
one leaves the designation unchanged (only closing the designated device
clears it). -/
theorem C6_first_keyboard_amended (st : EventHub) (fx : Fixture) (p : String) :
    (st.mHaveFirstKeyboard = true → st.mFirstKeyboardId ≠ 0 →
      (open_device st fx).st.mFirstKeyboardId = st.mFirstKeyboardId ∧
      (open_device st fx).st.mHaveFirstKeyboard = true) ∧
    (∀ d, closeFound st p = some d → d.id ≠ st.mFirstKeyboardId →
      (close_device st p).1.mFirstKeyboardId = st.mFirstKeyboardId) := by
  constructor
  · intro hh hid
    have hfk : openFirstKbd st fx = (st.mHaveFirstKeyboard, st.mFirstKeyboardId) := by
      simp [openFirstKbd, hh, hid]
    unfold open_device
    split_ifs <;> simp [openDropState, openRegisterState, hfk, hh]
  · intro d hf hne
    unfold closeFound at hf
    rcases hidx : closeIdx st p with _ | i
    · rw [hidx] at hf
      cases hf
    · rw [hidx] at hf
      have hf2 : st.mDevices.getD i none = some d := hf
      unfold close_device
      rw [hidx]
      simp only [hf2]
      simp [hne]

/-- Witness for C6: after a -keypad designation, opening another keyboard
leaves the designation unchanged. -/
theorem C6_witness :
    (open_device stKeypad fxB).st.mFirstKeyboardId = stKeypad.mFirstKeyboardId :=
  ((C6_first_keyboard_amended stKeypad fxB "x").1 (by decide) (by decide)).1

/-- C7: the claim is right and the code is wrong.  A device claims switch
cell 5 (SW_DOCK, which open_device's claim loop covers since it runs up to
SW_MAX), but close_device's clearing loop runs only up to EV_SW = 5 (an
event-type constant, not a switch bound), so after the device is closed and
gone the cell still holds its composite id 65536. -/
theorem C7_switch_clear_bug :
    (run [Step.openDev fxS]).mSwitches.getD 5 0 = 65536 ∧
    (run [Step.openDev fxS, Step.closeDev "devS"]).mSwitches.getD 5 0 = 65536 ∧
    (run [Step.openDev fxS, Step.closeDev "devS"]).mDevices = [none] ∧
    ((run [Step.openDev fxS, Step.closeDev "devS"]).mDevicesById.getD 0 ent0).device = none ∧
    (5 : Nat) ≤ SW_MAX ∧ EV_SW ≤ 5 := by
  decide

/-- C8 counterexample: when growing the identity table fails, open_device
does surface the failure (returns -1) but does not close the already-opened
candidate fd, refuting the claim that the fd is closed. -/
theorem C8_counterexample :
    (open_device initEventHub fxOom).ret = -1 ∧
    (open_device initEventHub fxOom).fdClosed = false := by
  decide

/-- C8 (amended): when growing the identity table fails with out-of-memory,
open_device fails and leaves the registry state entirely unchanged, but the
candidate file descriptor is not closed (it is leaked). -/
theorem C8_oom_amended (st : EventHub) (fx : Fixture) :
    fx.versionOk = true → fx.idOk = true → fx.name ∉ st.mExcludedDevices →
    st.mDevicesById.length ≤ openSlot st → fx.allocOk = false →
    open_device st fx = ⟨st, -1, false⟩ := by
  intro hv hi hex hlen halloc
  unfold open_device
  rw [if_neg (by simp [hv]), if_neg (by simp [hi]), if_neg hex,
    if_pos ⟨hlen, by simp [halloc]⟩]

/-- Witness for C8 at the empty registry. -/
theorem C8_witness : open_device initEventHub fxOom = ⟨initEventHub, -1, false⟩ :=
  C8_oom_amended initEventHub fxOom rfl rfl (by decide) (by decide) rfl

/-- C9: the claim is right and the code is wrong.  After open A, open B,
close A, open C: device B (id 65537, fd 11) is still open and found by
getDevice, but the poll-set entry at index id_to_index(65537) = 2 holds fd
12 (device C's descriptor), because close_device compacted the poll set
while ids keep their slot-based index.  The accessors' ioctls would target
the wrong descriptor. -/
theorem C9_poll_index_bug :
    ((run c9trace).mDevices.getD 1 none).map device_t.id = some 65537 ∧
    (getDevice (run c9trace) 65537).isSome = true ∧
    fxB.fd = 11 ∧
    (run c9trace).mFDs.getD 1 0 = 11 ∧
    id_to_index 65537 = 2 ∧
    (run c9trace).mFDs.getD (id_to_index 65537) 0 = 12 := by
  decide

theorem findScancodes_of_empty (m : KeyLayoutMap) (h : m.entries = []) (kc : Nat) :
    m.findScancodes kc = [] := by
  unfold KeyLayoutMap.findScancodes
  rw [h]
  rfl

/-- Every device open_device registers satisfies the hasKeys safety
invariant: a keyboard gets a cached bitmask, and a non-keyboard keeps the
constructor's empty layout map. -/
theorem goodDev_candidate (st : EventHub) (fx : Fixture) :
    goodDev (candidateDevice st fx) := by
  unfold goodDev candidateDevice preDevice candidateKeyBitmask candidateLayout
  by_cases hk : isKbd fx <;> simp [hk, KeyLayoutMap.empty]

theorem goodState_open (st : EventHub) (fx : Fixture) (h : goodState st) :
    goodState (open_device st fx).st := by
  unfold open_device
  split_ifs
  all_goals try exact h
  intro o ho d hd
  have ho1 : o ∈ st.mDevices ++ [some (candidateDevice st fx)] := ho
  rcases List.mem_append.mp ho1 with hin | hin
  · exact h o hin d hd
  · have ho2 : o = some (candidateDevice st fx) := by simpa using hin
    rw [ho2] at hd
    injection hd with hd2
    rw [← hd2]
    exact goodDev_candidate st fx

theorem goodState_close (st : EventHub) (p : String) (h : goodState st) :
    goodState (close_device st p).1 := by
  intro o ho d2 hd2
  apply h o ?_ d2 hd2
  unfold close_device at ho
  split at ho
  · exact ho
  · split at ho
    · exact ho
    · exact List.mem_of_mem_eraseIdx ho

theorem goodState_run (steps : List Step) : goodState (run steps) := by
  have hinit : goodState initEventHub := by
    intro o ho d hd
    simp [initEventHub] at ho
    rw [ho] at hd
    cases hd
  unfold run
  suffices haux : ∀ st, goodState st → goodState (List.foldl runStep st steps) from
    haux _ hinit
  induction steps with
  | nil => intro st hst; exact hst
  | cons s rest ih =>
    intro st hst
    simp only [List.foldl_cons]
    apply ih
    cases s with
    | openDev fx => exact goodState_open st fx hst
    | closeDev p => exact goodState_close st p hst

theorem hasKeysScan_isSome (devs : List (Option device_t)) (kc : Nat)
    (h : ∀ o ∈ devs, ∀ d, o = some d → goodDev d) :
    (hasKeysScan devs kc).isSome = true := by
  induction devs with
  | nil => rfl
  | cons o rest ih =>
    have hrest : ∀ o2 ∈ rest, ∀ d, o2 = some d → goodDev d := by
      intro o2 ho2 d hd
      exact h o2 (List.mem_cons_of_mem _ ho2) d hd
    cases o with
    | none => exact ih hrest
    | some d =>
      have hg : goodDev d := h (some d) (List.mem_cons_self _ _) d rfl
      cases hscs : d.layoutMap.findScancodes kc with
      | nil =>
        have hdt : deviceKeyTest d kc = some false := by
          unfold deviceKeyTest
          rw [hscs]
        simp only [hasKeysScan, hdt]
        exact ih hrest
      | cons a as =>
        cases hkb : d.keyBitmask with
        | none =>
          exfalso
          have hent := hg hkb
          have hfs := findScancodes_of_empty _ hent kc
          rw [hfs] at hscs
          cases hscs
        | some kb =>
          have hdt : deviceKeyTest d kc
              = some ((a :: as).any (fun sc => test_bit sc kb)) := by
            unfold deviceKeyTest
            rw [hscs, hkb]
          cases hb : (a :: as).any (fun sc => test_bit sc kb) with
          | true =>
            rw [hb] at hdt
            simp only [hasKeysScan, hdt]
            rfl
          | false =>
            rw [hb] at hdt
            simp only [hasKeysScan, hdt]
            exact ih hrest

/-- C10: in every reachable registry state, hasKeys is safe: every
scancode-bit test it performs reads a present (non-NULL) cached key bitmask,
because an open device with an absent bitmask necessarily has an empty
layout map, whose reverse lookup produces no scancodes.  The checked model
(none exactly when a NULL bitmask would be dereferenced) therefore always
returns a result. -/
theorem C10_hasKeys_nonnull (steps : List Step) (codes : List Nat) :
    (hasKeys (run steps) codes).isSome = true := by
  induction codes with
  | nil => rfl
  | cons c rest ih =>
    have h1 : (hasKeysScan (run steps).mDevices c).isSome = true :=
      hasKeysScan_isSome _ _ (goodState_run steps)
    cases hx : hasKeysScan (run steps).mDevices c with
    | none =>
      rw [hx] at h1
      cases h1
    | some b =>
      cases hy : hasKeys (run steps) rest with
      | none =>
        rw [hy] at ih
        cases ih
      | some bs => simp [hasKeys, hx, hy]

/-- Witness for C10 on a concrete trace and keycode list. -/
theorem C10_witness :
    (hasKeys (run [Step.openDev fxA, Step.openDev fxH1]) [45, 19]).isSome = true :=
  C10_hasKeys_nonnull [Step.openDev fxA, Step.openDev fxH1] [45, 19]
